import Mathlib

/-
Shallow embedding of the pharmaceutical reference-data service
(Clear-head/confound-insight): the compound / product / ingredient /
similarity data model and the filtering, statistics, search, lookup and
invalidation services defined over it, translated from
src/api/apps/compounds, src/api/apps/products and src/api/apps/analysis.
-/

/-! ## String and parsing utilities (Python semantics used by the views/services) -/

/-- Lower-case a string character-wise, the model of Python `str.lower()` /
Django `iexact` and `icontains` case folding. -/
def lowerChars (s : String) : List Char := s.toList.map Char.toLower

/-- Model of Python `str.strip()`: drop whitespace from both ends. -/
def pyStrip (s : String) : String :=
  String.mk (((s.toList.dropWhile Char.isWhitespace).reverse.dropWhile Char.isWhitespace).reverse)

/-- Whether `pat` occurs at the head of `l` (character-list matching helper). -/
def startsWithL : List Char → List Char → Bool
  | [], _ => true
  | _ :: _, [] => false
  | a :: as, b :: bs => a = b && startsWithL as bs

/-- Whether `pat` occurs as a contiguous substring of `l`. -/
def containsSub (pat : List Char) : List Char → Bool
  | [] => pat.isEmpty
  | c :: cs => startsWithL pat (c :: cs) || containsSub pat cs

/-- Django `field__iexact=q`: case-insensitive equality. -/
def iexact (q s : String) : Bool := lowerChars s = lowerChars q

/-- Django `field__icontains=q`: case-insensitive substring match. -/
def icontains (q s : String) : Bool := containsSub (lowerChars q) (lowerChars s)

/-- Django `field__icontains=q` on a nullable column: SQL `NULL LIKE` never matches. -/
def icontainsOpt (q : String) : Option String → Bool
  | none => false
  | some s => icontains q s

/-- Numeric value of a digit list (most significant first). -/
def digitsToNat (ds : List Char) : Nat :=
  ds.foldl (fun acc c => acc * 10 + (c.toNat - '0'.toNat)) 0

/-- Model of Python `int(s)` on an already-stripped string: optional sign then
one or more decimal digits; anything else raises `ValueError` (`none`). -/
def parsePyInt (s : String) : Option Int :=
  let core : List Char → Option Nat := fun ds =>
    if ds ≠ [] ∧ ds.all Char.isDigit then some (digitsToNat ds) else none
  match s.toList with
  | '+' :: ds => (core ds).map Int.ofNat
  | '-' :: ds => (core ds).map fun n => -(Int.ofNat n)
  | ds => (core ds).map Int.ofNat

/-- Unsigned part of Python `float(s)`: digits with an optional single decimal
point, at least one digit overall. -/
def parseUnsignedFloat (cs : List Char) : Option ℚ :=
  let intPart := cs.takeWhile Char.isDigit
  let rest := cs.dropWhile Char.isDigit
  match rest with
  | [] => if intPart.isEmpty then none else some ((digitsToNat intPart : ℚ))
  | '.' :: frac =>
      if frac.all Char.isDigit ∧ ¬(intPart.isEmpty ∧ frac.isEmpty) then
        some ((digitsToNat intPart : ℚ) + (digitsToNat frac : ℚ) / 10 ^ frac.length)
      else none
  | _ => none

/-- Model of Python `float(s)`: optional sign then an unsigned decimal literal;
anything else raises `ValueError` (`none`). -/
def parsePyFloat (s : String) : Option ℚ :=
  match s.toList with
  | '+' :: rest => parseUnsignedFloat rest
  | '-' :: rest => (parseUnsignedFloat rest).map Neg.neg
  | cs => parseUnsignedFloat cs

/-- Model of Python `round(x, 4)` on exact rationals: round to four decimal places. -/
def round4 (q : ℚ) : ℚ := (round (q * 10000) : ℚ) / 10000

/-! ## Data model (src/api/apps/compounds/models.py, products/models.py, analysis/models.py) -/

/-- The `Compound` model: the fields the services under verification read.
`fingerprint_morgan` is an opaque byte blob, modelled as a list of bytes. -/
structure Compound where
  id : Nat
  standard_name : String
  cid : Option Int
  smiles : Option String
  iupac_name : Option String
  molecular_formula : Option String
  fingerprint_morgan : Option (List Nat)
  is_valid : Bool
  molecular_weight : Option ℚ
deriving DecidableEq, Repr

/-- `Compound.has_structure_data`: `bool(self.smiles and self.fingerprint_morgan)`.
Python truthiness: `None` and the empty string / empty bytes are falsy. -/
def Compound.has_structure_data (c : Compound) : Bool :=
  (match c.smiles with | none => false | some s => !s.isEmpty) &&
  (match c.fingerprint_morgan with | none => false | some b => !b.isEmpty)

/-- The `SimilarityAnalysis` model. Rows carry their two endpoint compounds
(the ORM resolves the foreign keys to objects via `select_related`). -/
structure SimilarityRow where
  id : Nat
  target_compound : Compound
  similar_compound : Compound
  similarity_score : ℚ
  fingerprint_method : String
  similarity_metric : String
  is_current : Bool
deriving DecidableEq, Repr

/-- The ordered foreign-key pair of a similarity row, subject of the
`unique_together ('target_compound', 'similar_compound')` constraint. -/
def rowPair (r : SimilarityRow) : Nat × Nat :=
  (r.target_compound.id, r.similar_compound.id)

/-- The `ProductIngredient` model: a product-to-compound mapping row.
`compound` is the nullable foreign key (`on_delete=SET_NULL`). -/
structure Ingredient where
  id : Nat
  product_id : Nat
  compound : Option Nat
  raw_ingredient_name : String
  content : Option String
  unit : Option String
  is_main_active : Bool
  ingredient_type : String
  normalization_status : String
deriving DecidableEq, Repr

/-- The `Product` model: the fields the deletion claims read. -/
structure Product where
  id : Nat
  product_name : String
  permit_number : String
  manufacturer : Option String
  is_combination : Bool
deriving DecidableEq, Repr

/-! ## Similarity analysis service (src/api/apps/analysis/services.py) -/

/-- Result shape of the similarity lookup (`SimilarCompoundResult` dataclass). -/
structure SimilarCompoundResult where
  id : Nat
  standard_name : String
  cid : Option Int
  molecular_formula : Option String
  similarity_score : ℚ
  fingerprint_method : String
deriving DecidableEq, Repr

/-- Descending-score ordering used by `order_by("-similarity_score")`. -/
def scoreGE (a b : SimilarityRow) : Prop :=
  b.similarity_score ≤ a.similarity_score

instance : DecidableRel scoreGE := fun a b =>
  inferInstanceAs (Decidable (b.similarity_score ≤ a.similarity_score))

instance : IsTotal SimilarityRow scoreGE :=
  ⟨fun a b => le_total b.similarity_score a.similarity_score⟩

instance : IsTrans SimilarityRow scoreGE :=
  ⟨fun _ _ _ h1 h2 => le_trans h2 h1⟩

/-- Filter of `get_similar_compounds`: the row is current, scores at least
`m`, and has compound `c` on either side. -/
def simMatches (c : Compound) (m : ℚ) (r : SimilarityRow) : Bool :=
  (r.target_compound.id = c.id || r.similar_compound.id = c.id) &&
  decide (m ≤ r.similarity_score) && r.is_current

/-- Role-aware unwrap: `if sim.target_compound_id == compound.id` take the
comparison side, otherwise the target side. -/
def otherCompound (c : Compound) (r : SimilarityRow) : Compound :=
  if r.target_compound.id = c.id then r.similar_compound else r.target_compound

/-- One entry of the `get_similar_compounds` result list. -/
def mkSimilarResult (c : Compound) (r : SimilarityRow) : SimilarCompoundResult :=
  { id := (otherCompound c r).id
    standard_name := (otherCompound c r).standard_name
    cid := (otherCompound c r).cid
    molecular_formula := (otherCompound c r).molecular_formula
    similarity_score := r.similarity_score
    fingerprint_method := r.fingerprint_method }

/-- `SimilarityAnalysisService.get_similar_compounds`: filter current rows with
`c` on either side scoring at least `m`, order by score descending, take
`n`, and unwrap the opposite-side compound of each row. -/
def get_similar_compounds (rows : List SimilarityRow) (c : Compound) (m : ℚ) (n : Nat) :
    List SimilarCompoundResult :=
  ((((rows.filter (simMatches c m)).insertionSort scoreGE).take n).map (mkSimilarResult c))

/-- Whether a row has the given compound id on either side (the
`Q(target_compound_id=...) | Q(similar_compound_id=...)` disjunction). -/
def matchesCompoundId (cid : Nat) (r : SimilarityRow) : Bool :=
  r.target_compound.id = cid || r.similar_compound.id = cid

/-- `SimilarityAnalysisService.invalidate_compound_similarities`: set
`is_current = False` on every current row with the compound on either side;
return the new table and the number of rows updated. -/
def invalidate_compound_similarities (rows : List SimilarityRow) (cid : Nat) :
    List SimilarityRow × Nat :=
  (rows.map fun r =>
      if matchesCompoundId cid r && r.is_current then { r with is_current := false } else r,
   (rows.filter fun r => matchesCompoundId cid r && r.is_current).length)

/-- Result shape of `SimilarityAnalysisService.get_statistics` (the
`SimilarityStatistics` dataclass; the four `score_distribution` dict entries
become four fields). -/
structure SimilarityStatistics where
  total_analyses : Nat
  current_analyses : Nat
  average_score : ℚ
  dist_09_to_10 : Nat
  dist_08_to_09 : Nat
  dist_07_to_08 : Nat
  dist_below_07 : Nat
  method_distribution : List (String × Nat)
deriving DecidableEq, Repr

/-- Descending-count ordering used by `order_by("-count")`. -/
def countGE (a b : String × Nat) : Prop := b.2 ≤ a.2

instance : DecidableRel countGE := fun a b =>
  inferInstanceAs (Decidable (b.2 ≤ a.2))

instance : IsTotal (String × Nat) countGE := ⟨fun a b => le_total b.2 a.2⟩

instance : IsTrans (String × Nat) countGE := ⟨fun _ _ _ h1 h2 => le_trans h2 h1⟩

/-- Fingerprint-method group counts, ordered by descending count
(`values("fingerprint_method").annotate(count=...).order_by("-count")`). -/
def methodDistribution (rows : List SimilarityRow) : List (String × Nat) :=
  (((rows.map (·.fingerprint_method)).dedup).map fun m =>
      (m, (rows.filter fun r => r.fingerprint_method == m).length)).insertionSort countGE

/-- Sum of all similarity scores in the table. -/
def sumScores (rows : List SimilarityRow) : ℚ :=
  (rows.map (·.similarity_score)).sum

/-- `SimilarityAnalysisService.get_statistics`: counts, average (0.0 on an
empty table, rounded to 4 decimal places), half-open score buckets and the
method distribution. -/
def get_statistics (rows : List SimilarityRow) : SimilarityStatistics :=
  { total_analyses := rows.length
    current_analyses := (rows.filter (·.is_current)).length
    average_score :=
      round4 (if rows.length = 0 then 0 else sumScores rows / rows.length)
    dist_09_to_10 :=
      (rows.filter fun r => decide ((9 : ℚ)/10 ≤ r.similarity_score)).length
    dist_08_to_09 :=
      (rows.filter fun r =>
        decide ((8 : ℚ)/10 ≤ r.similarity_score) &&
        decide (r.similarity_score < (9 : ℚ)/10)).length
    dist_07_to_08 :=
      (rows.filter fun r =>
        decide ((7 : ℚ)/10 ≤ r.similarity_score) &&
        decide (r.similarity_score < (8 : ℚ)/10)).length
    dist_below_07 :=
      (rows.filter fun r => decide (r.similarity_score < (7 : ℚ)/10)).length
    method_distribution := methodDistribution rows }

/-! ## Compound search service (src/api/apps/compounds/services.py) -/

/-- Model of Python `str.lower()` as a `String`-valued function. -/
def strLower (s : String) : String := String.mk (lowerChars s)

/-- The `exact_match` queryset of the name search:
`filter(standard_name__iexact=query)`. -/
def exactTier (db : List Compound) (q : String) : List Compound :=
  db.filter fun c => iexact q c.standard_name

/-- The `partial_match` queryset of the name search: substring match on
`standard_name` or `iupac_name`, excluding exact matches
(`exclude(standard_name__iexact=query)`). -/
def partialTier (db : List Compound) (q : String) : List Compound :=
  db.filter fun c =>
    (icontains q c.standard_name || icontainsOpt q c.iupac_name) &&
    !(iexact q c.standard_name)

/-- Name-tier search: `list(exact_match) + list(partial_match)`. -/
def searchByName (db : List Compound) (q : String) : List Compound :=
  exactTier db q ++ partialTier db q

/-- `CompoundService.search_compounds`: strip the query, reject an empty
query; for type `cid` require an integer query and filter on exact cid; for
type `smiles` filter on exact-or-substring structure match; any other type
falls through to the name search. -/
def search_compounds (db : List Compound) (query : String) (search_type : String) :
    Except String (List Compound) :=
  let q := pyStrip query
  if q = "" then Except.error "query must not be empty"
  else
    let st := strLower search_type
    if st = "cid" then
      match parsePyInt q with
      | some v => Except.ok (db.filter fun c => c.cid == some v)
      | none => Except.error "cid must be an integer"
    else if st = "smiles" then
      Except.ok (db.filter fun c => c.smiles == some q || icontainsOpt q c.smiles)
    else
      Except.ok (searchByName db q)

/-! ## View-layer query-parameter parsing (src/api/apps/compounds/views.py,
src/api/apps/analysis/views.py) -/

/-- `CompoundFilterParams` dataclass. -/
structure CompoundFilterParams where
  is_valid : Option Bool
  has_structure : Option Bool
  has_cid : Option Bool
  min_weight : Option ℚ
  max_weight : Option ℚ
deriving DecidableEq, Repr

/-- `SimilarityFilterParams` dataclass. -/
structure SimilarityFilterParams where
  min_score : Option ℚ
  max_score : Option ℚ
  fingerprint_method : Option String
  is_current : Option Bool
  compound_id : Option Int
deriving DecidableEq, Repr

/-- `_parse_bool`: `None` stays `None`; otherwise true exactly for the
lower-cased literals "true", "1", "yes"; every other string is `False`. -/
def parse_bool : Option String → Option Bool
  | none => none
  | some v => some (strLower v = "true" || strLower v = "1" || strLower v = "yes")

/-- Python `float(v) if v else None` on an optional query parameter:
absent or empty is `None`; otherwise an unguarded `float(...)` call that
raises `ValueError` on an unparsable string. -/
def floatOrNone : Option String → Except String (Option ℚ)
  | none => Except.ok none
  | some s =>
      if s = "" then Except.ok none
      else
        match parsePyFloat s with
        | some q => Except.ok (some q)
        | none => Except.error "ValueError: could not convert string to float"

/-- Python `int(v) if v else None` on an optional query parameter, with the
same unguarded raise. -/
def intOrNone : Option String → Except String (Option Int)
  | none => Except.ok none
  | some s =>
      if s = "" then Except.ok none
      else
        match parsePyInt s with
        | some n => Except.ok (some n)
        | none => Except.error "ValueError: invalid literal for int"

/-- `CompoundViewSet._build_filter_params`: booleans go through
`_parse_bool`; the weight bounds go through an unguarded `float(...)`, so an
unparsable value raises instead of defaulting. -/
def build_filter_params
    (is_valid has_structure has_cid min_weight max_weight : Option String) :
    Except String CompoundFilterParams :=
  match floatOrNone min_weight, floatOrNone max_weight with
  | Except.ok mw, Except.ok xw =>
      Except.ok
        { is_valid := parse_bool is_valid
          has_structure := parse_bool has_structure
          has_cid := parse_bool has_cid
          min_weight := mw
          max_weight := xw }
  | Except.error e, _ => Except.error e
  | _, Except.error e => Except.error e

/-- `SimilarityAnalysisViewSet._build_filter_params`: the numeric parameters
go through unguarded `float(...)` / `int(...)` calls. -/
def build_similarity_filter_params
    (min_score max_score fingerprint_method is_current compound_id : Option String) :
    Except String SimilarityFilterParams :=
  match floatOrNone min_score, floatOrNone max_score, intOrNone compound_id with
  | Except.ok mn, Except.ok mx, Except.ok cid =>
      Except.ok
        { min_score := mn
          max_score := mx
          fingerprint_method := fingerprint_method
          is_current := parse_bool is_current
          compound_id := cid }
  | Except.error e, _, _ => Except.error e
  | _, Except.error e, _ => Except.error e
  | _, _, Except.error e => Except.error e

/-- `min_score` parsing on the `similar` / `by_compound` endpoints:
`float(...)` wrapped in `try/except ValueError` falling back to 0.7. -/
def similar_min_score : Option String → ℚ
  | none => 7/10
  | some s =>
      match parsePyFloat s with
      | some q => q
      | none => 7/10

/-- `limit` parsing on the `similar` / `by_compound` endpoints: `int(...)`
wrapped in `try/except ValueError` falling back to 10. -/
def similar_limit : Option String → Int
  | none => 10
  | some s =>
      match parsePyInt s with
      | some n => n
      | none => 10

/-! ## Similarity store operations (src/api/apps/analysis/models.py,
serializers.py, views.py) -/

/-- Creation of a similarity row: the serializer rejects
`target_compound == similar_compound`, and the store enforces the
`no_self_similarity` check constraint and the
`unique_together ('target_compound', 'similar_compound')` constraint. -/
def create_similarity (rows : List SimilarityRow) (new : SimilarityRow) :
    Except String (List SimilarityRow) :=
  if new.target_compound.id = new.similar_compound.id then
    Except.error "self comparison forbidden"
  else if rows.any fun r => rowPair r == rowPair new then
    Except.error "duplicate (target, similar) pair"
  else
    Except.ok (rows ++ [new])

/-- Operations the API exposes on the similarity store: create (validated),
bulk invalidate by compound id, and destroy by row id. -/
inductive SimOp where
  | create (r : SimilarityRow)
  | invalidate (cid : Nat)
  | destroy (rid : Nat)

/-- Effect of one store operation (a failed create leaves the store as is). -/
def applySimOp (rows : List SimilarityRow) : SimOp → List SimilarityRow
  | SimOp.create r =>
      match create_similarity rows r with
      | Except.ok rs => rs
      | Except.error _ => rows
  | SimOp.invalidate cid => (invalidate_compound_similarities rows cid).1
  | SimOp.destroy rid => rows.filter fun r => decide (r.id ≠ rid)

/-- The store state reached by running a sequence of operations from the
empty table. -/
def applySimOps (ops : List SimOp) : List SimilarityRow :=
  ops.foldl applySimOp []

/-- The database invariants of the similarity store: no self-comparison row,
and the ordered `(target, similar)` id pair is unique across rows. -/
def SimStoreValid (rows : List SimilarityRow) : Prop :=
  (∀ r ∈ rows, r.target_compound.id ≠ r.similar_compound.id) ∧
  (rows.map rowPair).Nodup

/-! ## Deletion semantics (on_delete declarations in
src/api/apps/products/models.py and src/api/apps/analysis/models.py) -/

/-- The relational state the deletion claims range over. -/
structure DB where
  products : List Product
  compounds : List Compound
  ingredients : List Ingredient
  similarities : List SimilarityRow
deriving Repr

/-- Deleting a `Product`: `ProductIngredient.product` has
`on_delete=CASCADE`, so every ingredient row of the product is deleted. -/
def delete_product (db : DB) (pid : Nat) : DB :=
  { db with
    products := db.products.filter fun p => decide (p.id ≠ pid)
    ingredients := db.ingredients.filter fun i => decide (i.product_id ≠ pid) }

/-- Deleting a `Compound`: `ProductIngredient.compound` has
`on_delete=SET_NULL`, so referencing ingredient rows survive with a null
compound reference; both similarity foreign keys have `on_delete=CASCADE`,
so every similarity row touching the compound is deleted. -/
def delete_compound (db : DB) (cid : Nat) : DB :=
  { db with
    compounds := db.compounds.filter fun c => decide (c.id ≠ cid)
    ingredients := db.ingredients.map fun i =>
      if i.compound = some cid then { i with compound := none } else i
    similarities := db.similarities.filter fun r =>
      decide (r.target_compound.id ≠ cid ∧ r.similar_compound.id ≠ cid) }

/-! ## Helper lemmas -/

/-- A string's `isEmpty` is false exactly when the string is non-empty. -/
theorem string_isEmpty_false_iff (s : String) : s.isEmpty = false ↔ s ≠ "" := by
  rw [Bool.eq_false_iff]
  exact not_congr (String.isEmpty_iff s)

/-- A list's `isEmpty` is false exactly when the list is non-empty. -/
theorem list_isEmpty_false_iff {α : Type} (l : List α) :
    l.isEmpty = false ↔ l ≠ [] := by
  rw [Bool.eq_false_iff]
  exact not_congr List.isEmpty_iff

/-! ## C1: `has_structure_data` -/

/-- Compound with a non-empty structure string and a fingerprint blob that is
present but is the empty byte string. -/
def emptyBlobCompound : Compound :=
  { id := 1, standard_name := "Methane", cid := some 297, smiles := some "C",
    iupac_name := none, molecular_formula := some "CH4",
    fingerprint_morgan := some [], is_valid := true, molecular_weight := none }

/-- C1 counterexample: `emptyBlobCompound` has a non-empty smiles string and a
non-null fingerprint blob (the empty byte string), yet `has_structure_data`
returns false, because Python truthiness treats `b""` as falsy. The claim
says it should return true. -/
theorem c1_has_structure_data_counterexample :
    emptyBlobCompound.smiles = some "C" ∧
    emptyBlobCompound.fingerprint_morgan = some [] ∧
    emptyBlobCompound.has_structure_data = false := by
  decide

/-- C1 (amended): `has_structure_data()` returns true iff the structure
string is present and non-empty AND the fingerprint blob is present and
non-empty; a present-but-empty byte string makes it false. -/
theorem c1_has_structure_data_amended (c : Compound) :
    c.has_structure_data = true ↔
    ((∃ s, c.smiles = some s ∧ s ≠ "") ∧
     (∃ b, c.fingerprint_morgan = some b ∧ b ≠ [])) := by
  cases hs : c.smiles with
  | none => simp [Compound.has_structure_data, hs]
  | some s =>
    cases hb : c.fingerprint_morgan with
    | none => simp [Compound.has_structure_data, hs, hb]
    | some b =>
      simp [Compound.has_structure_data, hs, hb, string_isEmpty_false_iff,
        list_isEmpty_false_iff]

/-! ## C3: invalidation -/

/-- Mapping a guarded rewrite over a list on which the guard never fires is
the identity. -/
theorem map_if_id {α : Type} (p : α → Bool) (f : α → α) (l : List α)
    (h : ∀ a ∈ l, p a = false) :
    (l.map fun a => if p a = true then f a else a) = l := by
  induction l with
  | nil => rfl
  | cons x xs ih =>
    simp only [List.map_cons]
    rw [if_neg (by simp [h x (List.mem_cons_self x xs)]),
      ih fun a ha => h a (List.mem_cons_of_mem _ ha)]

/-- After invalidation no row with the compound on either side is still
current. -/
theorem invalidate_post (rows : List SimilarityRow) (cid : Nat) :
    ∀ r ∈ (invalidate_compound_similarities rows cid).1,
      (matchesCompoundId cid r && r.is_current) = false := by
  intro r hr
  simp only [invalidate_compound_similarities, List.mem_map] at hr
  obtain ⟨r0, hr0, rfl⟩ := hr
  by_cases h : (matchesCompoundId cid r0 && r0.is_current) = true
  · rw [if_pos h]
    simp [matchesCompoundId]
  · rw [if_neg h]
    simpa using h

/-- C3: `invalidate_compound_similarities` returns the number of current rows
with the compound on either side; it keeps the table the same length,
rewrites exactly the current matching rows to their `is_current := false`
copy while leaving every other row unchanged, and a second immediate call on
the same id changes nothing and returns 0. -/
theorem c3_invalidate_exact_and_idempotent (rows : List SimilarityRow) (cid : Nat) :
    ((invalidate_compound_similarities rows cid).2 =
      (rows.filter fun r => matchesCompoundId cid r && r.is_current).length) ∧
    ((invalidate_compound_similarities rows cid).1.length = rows.length) ∧
    (∀ i : Fin rows.length,
      (invalidate_compound_similarities rows cid).1.get
          ⟨i.val, by simp [invalidate_compound_similarities]⟩ =
        (if matchesCompoundId cid (rows.get i) && (rows.get i).is_current
         then { rows.get i with is_current := false } else rows.get i)) ∧
    (invalidate_compound_similarities
        (invalidate_compound_similarities rows cid).1 cid =
      ((invalidate_compound_similarities rows cid).1, 0)) := by
  have hpost := invalidate_post rows cid
  refine ⟨rfl, by simp [invalidate_compound_similarities], fun i => ?_, ?_⟩
  · simp [invalidate_compound_similarities]
  · have h1 : (invalidate_compound_similarities
        (invalidate_compound_similarities rows cid).1 cid).1 =
        (invalidate_compound_similarities rows cid).1 :=
      map_if_id _ _ _ hpost
    have h2 : (invalidate_compound_similarities
        (invalidate_compound_similarities rows cid).1 cid).2 = 0 := by
      show (List.filter _ _).length = 0
      rw [List.filter_eq_nil_iff.mpr fun r hr => by simp [hpost r hr]]
      rfl
    exact Prod.ext h1 h2

/-! ## C9: similarity statistics -/

/-- The four score buckets of `get_statistics` partition any table: every row
falls in exactly one half-open bucket, so the bucket counts sum to the total
row count. -/
theorem bucket_partition (rows : List SimilarityRow) :
    (rows.filter fun r => decide ((9 : ℚ)/10 ≤ r.similarity_score)).length +
    (rows.filter fun r =>
      decide ((8 : ℚ)/10 ≤ r.similarity_score) &&
      decide (r.similarity_score < (9 : ℚ)/10)).length +
    (rows.filter fun r =>
      decide ((7 : ℚ)/10 ≤ r.similarity_score) &&
      decide (r.similarity_score < (8 : ℚ)/10)).length +
    (rows.filter fun r => decide (r.similarity_score < (7 : ℚ)/10)).length =
    rows.length := by
  induction rows with
  | nil => rfl
  | cons r rs ih =>
    simp only [List.filter_cons, List.length_cons]
    rcases le_or_lt ((9 : ℚ)/10) r.similarity_score with h9 | h9
    · have hb : ¬r.similarity_score < (9 : ℚ)/10 := not_lt.mpr h9
      have hc : ¬r.similarity_score < (8 : ℚ)/10 := not_lt.mpr (by linarith)
      have hd : ¬r.similarity_score < (7 : ℚ)/10 := not_lt.mpr (by linarith)
      simp [h9, hb, hc, hd]
      omega
    · rcases le_or_lt ((8 : ℚ)/10) r.similarity_score with h8 | h8
      · have ha : ¬(9 : ℚ)/10 ≤ r.similarity_score := not_le.mpr h9
        have hc : ¬r.similarity_score < (8 : ℚ)/10 := not_lt.mpr h8
        have hd : ¬r.similarity_score < (7 : ℚ)/10 := not_lt.mpr (by linarith)
        simp [ha, h8, h9, hc, hd]
        omega
      · rcases le_or_lt ((7 : ℚ)/10) r.similarity_score with h7 | h7
        · have ha : ¬(9 : ℚ)/10 ≤ r.similarity_score := not_le.mpr (by linarith)
          have hb : ¬(8 : ℚ)/10 ≤ r.similarity_score := not_le.mpr h8
          have hd : ¬r.similarity_score < (7 : ℚ)/10 := not_lt.mpr h7
          simp [ha, hb, h7, h8, hd]
          omega
        · have ha : ¬(9 : ℚ)/10 ≤ r.similarity_score := not_le.mpr (by linarith)
          have hb : ¬(8 : ℚ)/10 ≤ r.similarity_score := not_le.mpr (by linarith)
          have hc : ¬(7 : ℚ)/10 ≤ r.similarity_score := not_le.mpr h7
          simp [ha, hb, hc, h7]
          omega

/-- Placeholder compound used to populate concrete similarity tables. -/
def dummyCompound (i : Nat) : Compound :=
  { id := i, standard_name := "C", cid := none, smiles := none,
    iupac_name := none, molecular_formula := none, fingerprint_morgan := none,
    is_valid := true, molecular_weight := none }

/-- A current similarity row between two placeholder compounds. -/
def scoreRow (rid a b : Nat) (q : ℚ) : SimilarityRow :=
  { id := rid, target_compound := dummyCompound a,
    similar_compound := dummyCompound b, similarity_score := q,
    fingerprint_method := "Morgan_r2_2048", similarity_metric := "Tanimoto",
    is_current := true }

/-- The spec's concrete statistics table: rows scoring 0.95, 0.85, 0.75, 0.5. -/
def statsExampleRows : List SimilarityRow :=
  [scoreRow 1 1 2 (95/100), scoreRow 2 1 3 (85/100),
   scoreRow 3 1 4 (75/100), scoreRow 4 2 3 (5/10)]

/-- C9: the statistics buckets are a half-open partition (their counts sum to
the total for every table); the average is 0.0 on an empty table; and on the
concrete table scoring 0.95, 0.85, 0.75, 0.5 every bucket counts one row and
the average equals 0.7625. -/
theorem c9_statistics_buckets_and_average (rows : List SimilarityRow) :
    ((get_statistics rows).dist_09_to_10 + (get_statistics rows).dist_08_to_09 +
      (get_statistics rows).dist_07_to_08 + (get_statistics rows).dist_below_07 =
      (get_statistics rows).total_analyses) ∧
    (get_statistics []).average_score = 0 ∧
    (get_statistics statsExampleRows).total_analyses = 4 ∧
    (get_statistics statsExampleRows).dist_09_to_10 = 1 ∧
    (get_statistics statsExampleRows).dist_08_to_09 = 1 ∧
    (get_statistics statsExampleRows).dist_07_to_08 = 1 ∧
    (get_statistics statsExampleRows).dist_below_07 = 1 ∧
    (get_statistics statsExampleRows).average_score = 0.7625 := by
  refine ⟨bucket_partition rows, ?_, rfl, ?_, ?_, ?_, ?_, ?_⟩
  · norm_num [get_statistics, round4, round_eq]
  · norm_num [get_statistics, statsExampleRows, scoreRow, List.filter_cons]
  · norm_num [get_statistics, statsExampleRows, scoreRow, List.filter_cons]
  · norm_num [get_statistics, statsExampleRows, scoreRow, List.filter_cons]
  · norm_num [get_statistics, statsExampleRows, scoreRow, List.filter_cons]
  · norm_num [get_statistics, statsExampleRows, scoreRow, sumScores, round4,
      round_eq]

/-! ## C6: search validation errors -/

/-- C6: `search_compounds` fails exactly when the stripped query is empty, or
the search type is `cid` and the stripped query does not parse as an
integer; every other input yields a result list. -/
theorem c6_search_error_iff (db : List Compound) (query search_type : String) :
    (∃ e, search_compounds db query search_type = Except.error e) ↔
    (pyStrip query = "" ∨
     (strLower search_type = "cid" ∧ parsePyInt (pyStrip query) = none)) := by
  by_cases hq : pyStrip query = ""
  · simp [search_compounds, hq]
  · by_cases ht : strLower search_type = "cid"
    · cases hp : parsePyInt (pyStrip query) with
      | some v => simp [search_compounds, hq, ht, hp]
      | none => simp [search_compounds, hq, ht, hp]
    · by_cases hs : strLower search_type = "smiles"
      · simp [search_compounds, hq, ht, hs]
      · simp [search_compounds, hq, ht, hs]

/-! ## C10: unrecognized search types fall through to name search -/

/-- C10: any search type that is not `cid` and not `smiles` after lowercasing
behaves exactly like the `name` search; an unknown type is never rejected. -/
theorem c10_unknown_search_type_is_name (db : List Compound) (q t : String)
    (hc : strLower t ≠ "cid") (hs : strLower t ≠ "smiles") :
    search_compounds db q t = search_compounds db q "name" := by
  have h1 : strLower "name" ≠ "cid" := by decide
  have h2 : strLower "name" ≠ "smiles" := by decide
  by_cases hq : pyStrip q = ""
  · simp [search_compounds, hq]
  · simp [search_compounds, hq, hc, hs, h1, h2]

/-- C10 witness: the unrecognized search type "inchi" on a one-compound store
returns exactly the name-search result. -/
theorem c10_unknown_search_type_witness :
    search_compounds [dummyCompound 1] "C" "inchi" =
    search_compounds [dummyCompound 1] "C" "name" :=
  c10_unknown_search_type_is_name [dummyCompound 1] "C" "inchi"
    (by decide) (by decide)

/-! ## C4: two-tier name search -/

/-- C4: on a store with distinct compound ids and a non-empty query, the name
search returns the exact case-insensitive matches first and the
partial-but-not-exact matches second, each tier a sublist of the store (no
reordering), the tiers characterized by their match predicates, and no
compound id appears twice in the result. -/
theorem c4_name_search_two_tier (db : List Compound) (q : String)
    (hq : pyStrip q ≠ "") (hnd : (db.map (fun c => c.id)).Nodup) :
    (search_compounds db q "name" =
      Except.ok (exactTier db (pyStrip q) ++ partialTier db (pyStrip q))) ∧
    List.Sublist (exactTier db (pyStrip q)) db ∧
    List.Sublist (partialTier db (pyStrip q)) db ∧
    (∀ c, c ∈ exactTier db (pyStrip q) ↔
      c ∈ db ∧ iexact (pyStrip q) c.standard_name = true) ∧
    (∀ c, c ∈ partialTier db (pyStrip q) ↔
      c ∈ db ∧
      (icontains (pyStrip q) c.standard_name = true ∨
        icontainsOpt (pyStrip q) c.iupac_name = true) ∧
      ¬iexact (pyStrip q) c.standard_name = true) ∧
    (((exactTier db (pyStrip q) ++ partialTier db (pyStrip q)).map
      (fun c => c.id)).Nodup) := by
  have h1 : strLower "name" ≠ "cid" := by decide
  have h2 : strLower "name" ≠ "smiles" := by decide
  refine ⟨by simp [search_compounds, hq, h1, h2, searchByName],
    List.filter_sublist db, List.filter_sublist db,
    fun c => by simp [exactTier, List.mem_filter],
    fun c => by simp [partialTier, List.mem_filter, and_assoc],
    ?_⟩
  rw [List.map_append, List.nodup_append]
  have ndA : ((exactTier db (pyStrip q)).map (fun c => c.id)).Nodup :=
    List.Nodup.sublist (List.Sublist.map _ (List.filter_sublist db)) hnd
  have ndB : ((partialTier db (pyStrip q)).map (fun c => c.id)).Nodup :=
    List.Nodup.sublist (List.Sublist.map _ (List.filter_sublist db)) hnd
  refine ⟨ndA, ndB, fun i hiA hiB => ?_⟩
  simp only [List.mem_map] at hiA hiB
  obtain ⟨a, ha, hai⟩ := hiA
  obtain ⟨b, hb, hbi⟩ := hiB
  simp only [exactTier, List.mem_filter] at ha
  simp only [partialTier, List.mem_filter] at hb
  have hab : a = b :=
    List.inj_on_of_nodup_map hnd ha.1 hb.1 (hai.trans hbi.symm)
  have hbx : (!iexact (pyStrip q) b.standard_name) = true := by
    have hb2 := hb.2
    simp only [Bool.and_eq_true] at hb2
    exact hb2.2
  rw [hab] at ha
  rw [ha.2] at hbx
  exact absurd hbx (by decide)

/-- The compound named exactly "Aspirin" from the spec's search example. -/
def aspirinCompound : Compound :=
  { id := 1, standard_name := "Aspirin", cid := none, smiles := none,
    iupac_name := none, molecular_formula := none, fingerprint_morgan := none,
    is_valid := true, molecular_weight := none }

/-- The compound named "Aspirin Extra" from the spec's search example. -/
def aspirinExtraCompound : Compound :=
  { id := 2, standard_name := "Aspirin Extra", cid := none, smiles := none,
    iupac_name := none, molecular_formula := none, fingerprint_morgan := none,
    is_valid := true, molecular_weight := none }

/-- Store holding the two Aspirin compounds. -/
def aspirinDb : List Compound := [aspirinCompound, aspirinExtraCompound]

/-- C4 witness: searching "Aspirin" by name over the two Aspirin compounds
places the exact match first and the partial match second with no
duplicates, discharging the non-empty-query and distinct-id hypotheses. -/
theorem c4_name_search_witness :
    (search_compounds aspirinDb "Aspirin" "name" =
      Except.ok [aspirinCompound, aspirinExtraCompound]) ∧
    ((search_compounds aspirinDb "Aspirin" "name" =
      Except.ok (exactTier aspirinDb (pyStrip "Aspirin") ++
        partialTier aspirinDb (pyStrip "Aspirin"))) ∧
    List.Sublist (exactTier aspirinDb (pyStrip "Aspirin")) aspirinDb ∧
    List.Sublist (partialTier aspirinDb (pyStrip "Aspirin")) aspirinDb ∧
    (∀ c, c ∈ exactTier aspirinDb (pyStrip "Aspirin") ↔
      c ∈ aspirinDb ∧ iexact (pyStrip "Aspirin") c.standard_name = true) ∧
    (∀ c, c ∈ partialTier aspirinDb (pyStrip "Aspirin") ↔
      c ∈ aspirinDb ∧
      (icontains (pyStrip "Aspirin") c.standard_name = true ∨
        icontainsOpt (pyStrip "Aspirin") c.iupac_name = true) ∧
      ¬iexact (pyStrip "Aspirin") c.standard_name = true) ∧
    (((exactTier aspirinDb (pyStrip "Aspirin") ++
        partialTier aspirinDb (pyStrip "Aspirin")).map
      (fun c => c.id)).Nodup)) :=
  ⟨by rfl, c4_name_search_two_tier aspirinDb "Aspirin" (by decide) (by decide)⟩

/-! ## C2: role-aware similarity lookup -/

/-- C2: `get_similar_compounds` returns the current rows holding `c` on
either side with score at least `m`, arranged in descending score order and
capped at `n`; its length is `min n` of the matching-row count; its entries
are sorted by descending score; and every entry unwraps the compound on the
side opposite to `c` (never `c` itself) paired with that row's score and
fingerprint method. -/
theorem c2_similar_lookup (rows : List SimilarityRow) (c : Compound) (m : ℚ)
    (n : Nat)
    (hvalid : ∀ r ∈ rows, r.target_compound.id ≠ r.similar_compound.id) :
    (∃ sorted_rows : List SimilarityRow,
      List.Perm sorted_rows (rows.filter (simMatches c m)) ∧
      List.Sorted scoreGE sorted_rows ∧
      get_similar_compounds rows c m n =
        (sorted_rows.take n).map (mkSimilarResult c)) ∧
    ((get_similar_compounds rows c m n).length =
      min n (rows.filter (simMatches c m)).length) ∧
    List.Sorted (fun a b : SimilarCompoundResult =>
      b.similarity_score ≤ a.similarity_score)
      (get_similar_compounds rows c m n) ∧
    (∀ x ∈ get_similar_compounds rows c m n,
      x.id ≠ c.id ∧
      ∃ r ∈ rows, simMatches c m r = true ∧ x = mkSimilarResult c r) := by
  refine ⟨⟨List.insertionSort scoreGE (rows.filter (simMatches c m)),
    List.perm_insertionSort _ _, List.sorted_insertionSort _ _, rfl⟩,
    ?_, ?_, ?_⟩
  · simp [get_similar_compounds, List.length_take]
  · simp only [get_similar_compounds]
    exact List.Pairwise.map _ (fun a b (hab : scoreGE a b) => hab)
      (List.Pairwise.sublist (List.take_sublist _ _)
        (List.sorted_insertionSort _ _))
  · intro x hx
    simp only [get_similar_compounds, List.mem_map] at hx
    obtain ⟨r, hr, rfl⟩ := hx
    have hr2 : r ∈ List.insertionSort scoreGE (rows.filter (simMatches c m)) :=
      (List.take_sublist _ _).subset hr
    have hr3 : r ∈ rows.filter (simMatches c m) :=
      (List.perm_insertionSort _ _).mem_iff.mp hr2
    have hr4 := List.mem_filter.mp hr3
    refine ⟨?_, r, hr4.1, hr4.2, rfl⟩
    have hneq := hvalid r hr4.1
    show (otherCompound c r).id ≠ c.id
    unfold otherCompound
    by_cases htc : r.target_compound.id = c.id
    · rw [if_pos htc]
      omega
    · rw [if_neg htc]
      exact htc

/-- Compound A of the spec's role-unwrap example. -/
def compoundA : Compound :=
  { id := 11, standard_name := "CompoundA", cid := none, smiles := none,
    iupac_name := none, molecular_formula := none, fingerprint_morgan := none,
    is_valid := true, molecular_weight := none }

/-- Compound B of the spec's role-unwrap example. -/
def compoundB : Compound :=
  { id := 12, standard_name := "CompoundB", cid := none, smiles := none,
    iupac_name := none, molecular_formula := none, fingerprint_morgan := none,
    is_valid := true, molecular_weight := none }

/-- The stored row `target=compoundA, similar=compoundB, score=0.9`. -/
def demoRowAB : SimilarityRow :=
  { id := 1, target_compound := compoundA, similar_compound := compoundB,
    similarity_score := 9/10, fingerprint_method := "Morgan_r2_2048",
    similarity_metric := "Tanimoto", is_current := true }

/-- One-row similarity table for the role-unwrap example. -/
def demoRows : List SimilarityRow := [demoRowAB]

/-- C2 witness: on the one-row table `target=A, similar=B, score=0.9`,
querying for B surfaces A (the role-aware unwrap), and the lookup contract
holds with the no-self-comparison hypothesis discharged concretely. -/
theorem c2_similar_lookup_witness :
    (get_similar_compounds demoRows compoundB (7/10) 10 =
      [{ id := 11, standard_name := "CompoundA", cid := none,
         molecular_formula := none, similarity_score := 9/10,
         fingerprint_method := "Morgan_r2_2048" }]) ∧
    ((∃ sorted_rows : List SimilarityRow,
      List.Perm sorted_rows (demoRows.filter (simMatches compoundB (7/10))) ∧
      List.Sorted scoreGE sorted_rows ∧
      get_similar_compounds demoRows compoundB (7/10) 10 =
        (sorted_rows.take 10).map (mkSimilarResult compoundB)) ∧
    ((get_similar_compounds demoRows compoundB (7/10) 10).length =
      min 10 (demoRows.filter (simMatches compoundB (7/10))).length) ∧
    List.Sorted (fun a b : SimilarCompoundResult =>
      b.similarity_score ≤ a.similarity_score)
      (get_similar_compounds demoRows compoundB (7/10) 10) ∧
    (∀ x ∈ get_similar_compounds demoRows compoundB (7/10) 10,
      x.id ≠ compoundB.id ∧
      ∃ r ∈ demoRows, simMatches compoundB (7/10) r = true ∧
        x = mkSimilarResult compoundB r)) :=
  ⟨by norm_num [get_similar_compounds, demoRows, demoRowAB, compoundA,
      compoundB, simMatches, mkSimilarResult, otherCompound,
      List.insertionSort, List.orderedInsert, List.filter],
   c2_similar_lookup demoRows compoundB (7/10) 10 (by decide)⟩

/-! ## C7: similarity store invariants -/

/-- A successful create preserves the store invariants. -/
theorem create_similarity_preserves (rows : List SimilarityRow)
    (new : SimilarityRow) (rows' : List SimilarityRow)
    (h : create_similarity rows new = Except.ok rows')
    (hv : SimStoreValid rows) : SimStoreValid rows' := by
  unfold create_similarity at h
  by_cases h1 : new.target_compound.id = new.similar_compound.id
  · rw [if_pos h1] at h
    exact absurd h (by simp)
  · rw [if_neg h1] at h
    by_cases h2 : (rows.any fun r => rowPair r == rowPair new) = true
    · rw [if_pos h2] at h
      exact absurd h (by simp)
    · rw [if_neg h2] at h
      have hr : rows' = rows ++ [new] := by
        injection h with h
        exact h.symm
      subst hr
      constructor
      · intro r hr
        rcases List.mem_append.mp hr with hin | hin
        · exact hv.1 r hin
        · rw [List.mem_singleton.mp hin]
          exact h1
      · rw [List.map_append, List.nodup_append]
        refine ⟨hv.2, List.nodup_singleton _, fun p hp hpn => ?_⟩
        rw [List.mem_singleton.mp hpn] at hp
        obtain ⟨r0, hr0, hr0p⟩ := List.mem_map.mp hp
        apply h2
        simp only [List.any_eq_true, beq_iff_eq]
        exact ⟨r0, hr0, hr0p⟩

/-- Invalidation preserves the store invariants (it only clears flags). -/
theorem invalidate_preserves (rows : List SimilarityRow) (cid : Nat)
    (hv : SimStoreValid rows) :
    SimStoreValid (invalidate_compound_similarities rows cid).1 := by
  have hpair : ∀ r : SimilarityRow,
      rowPair (if matchesCompoundId cid r && r.is_current then
        { r with is_current := false } else r) = rowPair r := by
    intro r
    split <;> rfl
  constructor
  · intro r hr
    obtain ⟨r0, hr0, rfl⟩ :=
      List.mem_map.mp (by simpa [invalidate_compound_similarities] using hr)
    have := hv.1 r0 hr0
    split <;> exact this
  · show ((rows.map _).map rowPair).Nodup
    rw [List.map_map]
    have : rows.map (rowPair ∘ fun r =>
        if matchesCompoundId cid r && r.is_current then
          { r with is_current := false } else r) = rows.map rowPair :=
      List.map_congr_left fun r _ => hpair r
    rw [this]
    exact hv.2

/-- Deleting rows (by id, or any filter) preserves the store invariants. -/
theorem filter_preserves (rows : List SimilarityRow) (p : SimilarityRow → Bool)
    (hv : SimStoreValid rows) : SimStoreValid (rows.filter p) := by
  constructor
  · intro r hr
    exact hv.1 r (List.mem_filter.mp hr).1
  · exact List.Nodup.sublist
      (List.Sublist.map _ (List.filter_sublist rows)) hv.2

/-- Every state reachable from the empty store through the API's create /
invalidate / destroy operations satisfies the store invariants. -/
theorem applySimOps_valid (ops : List SimOp) : SimStoreValid (applySimOps ops) := by
  have general : ∀ (l : List SimOp) (rows : List SimilarityRow),
      SimStoreValid rows → SimStoreValid (l.foldl applySimOp rows) := by
    intro l
    induction l with
    | nil => exact fun rows hv => hv
    | cons op l ih =>
      intro rows hv
      apply ih
      cases op with
      | create r =>
        show SimStoreValid (match create_similarity rows r with
          | Except.ok rs => rs
          | Except.error _ => rows)
        cases hc : create_similarity rows r with
        | ok rs => exact create_similarity_preserves rows r rs hc hv
        | error e => exact hv
      | invalidate cid => exact invalidate_preserves rows cid hv
      | destroy rid => exact filter_preserves rows _ hv
  exact general ops []
    ⟨fun r hr => absurd hr (List.not_mem_nil r), List.nodup_nil⟩

/-- The reversed row `target=compoundB, similar=compoundA`. -/
def demoRowBA : SimilarityRow :=
  { id := 2, target_compound := compoundB, similar_compound := compoundA,
    similarity_score := 8/10, fingerprint_method := "Morgan_r2_2048",
    similarity_metric := "Tanimoto", is_current := true }

/-- C7: creating a self-comparison row always fails; every state reachable
through the store's operations has no self-comparison row and a unique
ordered `(target, similar)` pair per row; and the reversed pairs
`(A, B)` and `(B, A)` can coexist in a reachable state. -/
theorem c7_similarity_store_invariants :
    (∀ rows (new : SimilarityRow),
      new.target_compound.id = new.similar_compound.id →
      ∃ e, create_similarity rows new = Except.error e) ∧
    (∀ ops, SimStoreValid (applySimOps ops)) ∧
    ((11, 12) ∈ (applySimOps
      [SimOp.create demoRowAB, SimOp.create demoRowBA]).map rowPair ∧
     (12, 11) ∈ (applySimOps
      [SimOp.create demoRowAB, SimOp.create demoRowBA]).map rowPair) := by
  refine ⟨fun rows new h => ?_, applySimOps_valid, by decide, by decide⟩
  unfold create_similarity
  rw [if_pos h]
  exact ⟨_, rfl⟩

/-! ## C8: deletion semantics -/

/-- C8: deleting a product removes exactly its ingredient mappings (every
other mapping survives); deleting a compound keeps every ingredient mapping
at its position, nulling the compound reference of the mappings that pointed
at it and leaving all their other fields unchanged, and removes exactly the
similarity rows with that compound on either side. -/
theorem c8_deletion_semantics (db : DB) (pid cid : Nat) :
    (∀ i ∈ db.ingredients, i.product_id = pid →
      i ∉ (delete_product db pid).ingredients) ∧
    (∀ i ∈ db.ingredients, i.product_id ≠ pid →
      i ∈ (delete_product db pid).ingredients) ∧
    ((delete_compound db cid).ingredients.length = db.ingredients.length) ∧
    (∀ j : Fin db.ingredients.length,
      (delete_compound db cid).ingredients.get
          ⟨j.val, by simp [delete_compound]⟩ =
        (if (db.ingredients.get j).compound = some cid
         then { db.ingredients.get j with compound := none }
         else db.ingredients.get j)) ∧
    (∀ r ∈ db.similarities,
      (r.target_compound.id = cid ∨ r.similar_compound.id = cid) →
        r ∉ (delete_compound db cid).similarities) ∧
    (∀ r ∈ db.similarities,
      r.target_compound.id ≠ cid → r.similar_compound.id ≠ cid →
        r ∈ (delete_compound db cid).similarities) := by
  refine ⟨?_, ?_, by simp [delete_compound], ?_, ?_, ?_⟩
  · intro i _ hpid hmem
    have h := (List.mem_filter.mp hmem).2
    simp only [decide_eq_true_eq] at h
    exact h hpid
  · intro i hi hne
    exact List.mem_filter.mpr ⟨hi, by simp [hne]⟩
  · intro j
    simp [delete_compound]
  · intro r _ hside hmem
    have h := (List.mem_filter.mp hmem).2
    simp only [decide_eq_true_eq] at h
    rcases hside with hs | hs
    · exact h.1 hs
    · exact h.2 hs
  · intro r hr h1 h2
    exact List.mem_filter.mpr ⟨hr, by simp [h1, h2]⟩

/-! ## C5: query-parameter parsing on non-search endpoints -/

/-- C5 counterexample: on the compound list endpoint the unparsable query
parameter `min_weight=abc` raises a `ValueError` (the `float(...)` call in
`_build_filter_params` is not guarded by try/except), so the request errors
instead of falling back to a default. -/
theorem c5_list_endpoint_counterexample :
    build_filter_params none none none (some "abc") none =
      Except.error "ValueError: could not convert string to float" := by
  rfl

/-- C5 (amended): only the `similar` / `by_compound` endpoints silently
replace an unparsable `min_score` / `limit` by the defaults 0.7 and 10; on
the list endpoints an unparsable numeric parameter (such as `min_weight` on
compounds or `compound_id` on similarities) raises a `ValueError` and the
request errors. -/
theorem c5_param_fallback_amended (s : String) (hne : s ≠ "")
    (hfloat : parsePyFloat s = none) (hint : parsePyInt s = none) :
    similar_min_score (some s) = 7/10 ∧
    similar_limit (some s) = 10 ∧
    build_filter_params none none none (some s) none =
      Except.error "ValueError: could not convert string to float" ∧
    build_similarity_filter_params none none none none (some s) =
      Except.error "ValueError: invalid literal for int" := by
  have h1 : floatOrNone (some s) =
      Except.error "ValueError: could not convert string to float" := by
    simp [floatOrNone, hne, hfloat]
  have h2 : intOrNone (some s) =
      Except.error "ValueError: invalid literal for int" := by
    simp [intOrNone, hne, hint]
  refine ⟨by simp [similar_min_score, hfloat], by simp [similar_limit, hint],
    ?_, ?_⟩
  · have h3 : floatOrNone (none : Option String) = Except.ok none := rfl
    unfold build_filter_params
    rw [h1, h3]
  · have h3 : floatOrNone (none : Option String) = Except.ok none := rfl
    unfold build_similarity_filter_params
    rw [h2, h3]

/-- C5 witness: the amended behavior at the concrete unparsable string
"abc": fallback to 0.7 and 10 on the similar endpoint, `ValueError` on the
list endpoints. -/
theorem c5_param_fallback_witness :
    similar_min_score (some "abc") = 7/10 ∧
    similar_limit (some "abc") = 10 ∧
    build_filter_params none none none (some "abc") none =
      Except.error "ValueError: could not convert string to float" ∧
    build_similarity_filter_params none none none none (some "abc") =
      Except.error "ValueError: invalid literal for int" :=
  c5_param_fallback_amended "abc" (by decide) (by rfl) (by rfl)
